import Mathlib

/-!
Verification of the ClawShield risk scanner and runtime guard.

This file gives a shallow embedding of the scoring, recommendation,
path/domain allow-list and behavior-scan logic of the ClawShield
sources (`RiskScannerService`, `constants.ts`, `node-guard.ts` and the
embedded Python guard), and proves or refutes the specification claims
about them.

Modelling conventions:
* JavaScript numbers are modelled as exact rationals (`ℚ`); the sums
  appearing in `calculateScore` are quarter-integers far below 2^53, so
  double arithmetic is exact there and `Math.round` agrees with
  Mathlib's `round` (round half up, `⌊x + 1/2⌋`).
* JavaScript strings are Lean `String`s; `s.split(c)[0]`,
  `s.toLowerCase()`, `s.startsWith(p)`, `s.endsWith(p)` and
  `s.slice(0, n)` are modelled list-wise on `String.data` by the
  helpers `beforeColon`, `lowerStr`, `strStartsWith`, `strEndsWith`
  and `takeStr`.
* Filesystem paths reaching `isPathAllowed` are assumed already in the
  canonical form produced by `normalizePath` (`path.resolve`, plus the
  win32 case fold which is the identity on the POSIX platform modelled
  here); `path.sep` is `"/"`.
* Fallible operations are modelled with `Except`; a swallowed exception
  (an empty `catch`) is modelled by returning the unchanged state.
-/

/-- Severity of a risk flag (`RiskFlag.severity` in `types.ts`). -/
inductive Severity
  | low
  | medium
  | high
  | critical
deriving DecidableEq

/-- Detector that produced a flag (`RiskFlag.source` in `types.ts`). -/
inductive FlagSource
  | regex
  | ast
  | dependency
  | behavior
deriving DecidableEq

/-- Recommendation tier (`RiskRecommendation` in `types.ts`). -/
inductive RiskRecommendation
  | allow
  | sandbox
  | block
deriving DecidableEq

/-- A risk flag (`RiskFlag` in `types.ts`). Optional fields are `Option`s. -/
structure RiskFlag where
  type : String
  severity : Severity
  description : String
  location : Option String
  line : Option Nat
  source : Option FlagSource
  evidence : Option String
deriving DecidableEq

/-- Key on which the spec asserts finding uniqueness:
`(category, file, line, evidence)`. -/
def flagKey (f : RiskFlag) : String × Option String × Option Nat × Option String :=
  (f.type, f.location, f.line, f.evidence)

/-- Model of JS `s.toLowerCase()` / Python `s.lower()` (ASCII letters). -/
def lowerStr (s : String) : String :=
  String.mk (s.data.map Char.toLower)

/-- Model of `s.split(":")[0]`: the part of `s` before the first colon. -/
def beforeColon (s : String) : String :=
  String.mk (s.data.takeWhile (fun c => c != ':'))

/-- Model of JS `s.startsWith(p)`. -/
def strStartsWith (s p : String) : Bool :=
  p.data.isPrefixOf s.data

/-- Model of JS `s.endsWith(p)` / Python `s.endswith(p)`. -/
def strEndsWith (s p : String) : Bool :=
  p.data.isSuffixOf s.data

/-- Model of JS `s.slice(0, n)`. -/
def takeStr (n : Nat) (s : String) : String :=
  String.mk (s.data.take n)

/-- The risk thresholds of `constants.ts` (`RISK_THRESHOLDS`). -/
def SAFE_MAX : ℤ := 30

/-- The `WARNING_MAX` threshold of `constants.ts`. -/
def WARNING_MAX : ℤ := 60

/-- `getRecommendation` from `constants.ts`: `allow` up to 30, `sandbox`
up to 60, otherwise `block`. -/
def getRecommendation (score : ℤ) : RiskRecommendation :=
  if score ≤ SAFE_MAX then RiskRecommendation.allow
  else if score ≤ WARNING_MAX then RiskRecommendation.sandbox
  else RiskRecommendation.block

/-- The `typeWeights` table of `RiskScannerService.calculateScore`,
including the `|| 5` default for unknown categories.  Numeric values are
spelled out exactly as they evaluate in the source (`RISK_WEIGHTS`
constants; `native_binary` is `DEPENDENCY_RISK + 5 = 25`).  All table
entries are (non-negative) integers, so the table is given over `ℕ`. -/
def typeWeightN (t : String) : ℕ :=
  if t = "shell_execution" then 25
  else if t = "filesystem_write" then 15
  else if t = "filesystem_delete" then 20
  else if t = "network_call" then 20
  else if t = "remote_script_exec" then 30
  else if t = "obfuscation" then 25
  else if t = "credential_access" then 20
  else if t = "suspicious_long_line" then 10
  else if t = "dependency_script" then 20
  else if t = "dependency_url" then 20
  else if t = "dependency_index" then 20
  else if t = "dependency_unpinned" then 10
  else if t = "native_binary" then 25
  else if t = "dynamic_require" then 10
  else if t = "dynamic_import" then 10
  else if t = "sensitive_import" then 5
  else if t = "runtime_blocked" then 15
  else 5

/-- The weight of a category as the rational number used in the score
arithmetic. -/
def typeWeight (t : String) : ℚ :=
  (typeWeightN t : ℚ)

/-- Contribution of one category to the score, as computed inside the
loop of `calculateScore`: `weight + min(count - 1, 3) * (weight / 4)`,
where `count` is the number of flags of that category. -/
def categoryContribution (flags : List RiskFlag) (t : String) : ℚ :=
  typeWeight t + ((min ((flags.map RiskFlag.type).count t - 1) 3 : ℕ) : ℚ) * (typeWeight t / 4)

/-- `RiskScannerService.calculateScore`: the `typeCount` object holds
each distinct flag type with its multiplicity (modelled by `dedup` and
`count`); the loop over its entries accumulates the contributions and
the result is rounded. -/
def calculateScore (flags : List RiskFlag) : ℤ :=
  round (((flags.map RiskFlag.type).dedup).foldl
    (fun acc t => acc + categoryContribution flags t) (0 : ℚ))

/-- Specification-side formula of claim C1: the rounded sum, over each
distinct category present, of `weight[c] + min(count[c]-1, 3) * weight[c]/4`. -/
def specScoreSum (flags : List RiskFlag) : ℚ :=
  (((flags.map RiskFlag.type).dedup).map (categoryContribution flags)).sum

/-- `isPathAllowed` from `node-guard.ts` (and `_is_path_allowed` of the
Python guard): the target and the allow-listed directories are given in
canonical (`normalizePath`) form; the audit file path is always allowed;
otherwise the target must equal an allow-listed directory or start with
it followed by the path separator. -/
def isPathAllowed (auditResolved : String) (allowedDirs : List String)
    (targetPath : Option String) : Bool :=
  match targetPath with
  | none => false
  | some target =>
    if target == auditResolved then true
    else if allowedDirs.isEmpty then false
    else allowedDirs.any (fun allowed =>
      target == allowed || strStartsWith target (allowed ++ "/"))

/-- Specification-side path predicate of claim C3: the canonical target
equals an allow-listed directory or extends one followed by the path
separator. -/
def specPathAllowed (allowedDirs : List String) (target : String) : Bool :=
  allowedDirs.any (fun d => target == d || strStartsWith target (d ++ "/"))

/-- `isDomainAllowed` from `node-guard.ts`: lower-case the host, strip a
`:port` suffix, then accept exact matches or dot-suffix subdomains of an
allow-listed domain. -/
def isDomainAllowed (allowedDomains : List String) (host : Option String) : Bool :=
  match host with
  | none => false
  | some h =>
    let hostname := beforeColon (lowerStr h)
    if allowedDomains.isEmpty then false
    else allowedDomains.any (fun domain =>
      let d := lowerStr domain
      hostname == d || strEndsWith hostname ("." ++ d))

/-- `_is_domain_allowed` from the embedded Python guard: identical rule,
except the port is stripped before lower-casing. -/
def pyIsDomainAllowed (allowedDomains : List String) (host : Option String) : Bool :=
  match host with
  | none => false
  | some h =>
    let hostname := lowerStr (beforeColon h)
    if allowedDomains.isEmpty then false
    else allowedDomains.any (fun domain =>
      let d := lowerStr domain
      hostname == d || strEndsWith hostname ("." ++ d))

/-- Specification-side domain predicate of claim C4: the hostname
(case-folded, `:port` suffix ignored) equals an allow-listed domain or
ends with `"."` followed by one. -/
def specDomainAllowed (allowedDomains : List String) (host : String) : Bool :=
  allowedDomains.any (fun domain =>
    lowerStr (beforeColon host) == lowerStr domain
      || strEndsWith (lowerStr (beforeColon host)) ("." ++ lowerStr domain))

/-- The part of the guard configuration relevant to network decisions. -/
structure GuardNetConfig where
  blockNetwork : Bool
  allowedDomains : List String

/-- The allow/deny decision of `handleNetwork` in `node-guard.ts`:
`config.allowedDomains.length > 0 ? isDomainAllowed(host) : !config.blockNetwork`. -/
def nodeNetworkAllowed (cfg : GuardNetConfig) (host : Option String) : Bool :=
  if cfg.allowedDomains.length > 0 then isDomainAllowed cfg.allowedDomains host
  else !cfg.blockNetwork

/-- The allow/deny decision of `_handle_network` in the Python guard:
`(not BLOCK_NETWORK) or _is_domain_allowed(host)`. -/
def pyNetworkAllowed (cfg : GuardNetConfig) (host : Option String) : Bool :=
  !cfg.blockNetwork || pyIsDomainAllowed cfg.allowedDomains host

/-- The part of the guard configuration relevant to filesystem writes. -/
structure GuardFsConfig where
  blockFsWrite : Bool
  allowedDirs : List String
  auditResolved : String

/-- `writeAudit` of `node-guard.ts` (and `_write_audit` of the Python
guard): appends one entry to the audit trail; every failure of the
underlying file write (modelled by `diskOk = false`) is swallowed by the
surrounding `catch`, leaving the trail unchanged and raising nothing. -/
def writeAudit (diskOk : Bool) (trail : List String) (entry : String) : List String :=
  if diskOk then trail ++ [entry] else trail

/-- The wrapper installed by `wrapWrite` in `node-guard.ts` around a
filesystem-write function: when `blockFsWrite` is set and the target is
not allowed it writes a `blocked` audit entry and throws the
`CLAWSHIELD_BLOCKED` error (modelled as `Except.error`); otherwise it
logs a `success` entry only under audit level `all` and proceeds. -/
def wrapWrite (cfg : GuardFsConfig) (auditLevelAll : Bool) (diskOk : Bool)
    (trail : List String) (target : Option String) :
    List String × Except String Unit :=
  if cfg.blockFsWrite && !(isPathAllowed cfg.auditResolved cfg.allowedDirs target) then
    (writeAudit diskOk trail "blocked:fs_write",
      Except.error "ClawShield blocked filesystem write")
  else
    ((if auditLevelAll then writeAudit diskOk trail "success:fs_write" else trail),
      Except.ok ())

/-- The allow-list of readable environment keys in the Node guard's
secrets proxy: the fixed non-secret names plus `CLAWSHIELD_ALLOWED_ENV`. -/
def defaultEnvAllowed (allowedEnv : List String) : List String :=
  ["PATH", "HOME", "USER", "SHELL", "TMPDIR", "TEMP", "TMP", "LANG", "NODE_ENV",
   "NODE_OPTIONS"] ++ allowedEnv

/-- The `get` trap of the Node guard's `process.env` proxy: a read of a
key outside the allow-list logs a `blocked` entry and returns
`undefined` (modelled as `none`) to the caller — it does not throw, so
the guarded code continues with `undefined`; an allowed key reads
through to the backing environment. -/
def envGetGuard (allowedEnv : List String) (diskOk : Bool) (trail : List String)
    (env : List (String × String)) (key : String) :
    List String × Except String (Option String) :=
  if (defaultEnvAllowed allowedEnv).contains key then
    (trail, Except.ok (env.lookup key))
  else
    (writeAudit diskOk trail "blocked:env", Except.ok none)

/-- The wrapper installed over each `child_process` function when
`blockShell` is set: it logs a blocked entry and unconditionally throws
the `CLAWSHIELD_BLOCKED` error. -/
def blockedShellCall (fn : String) (diskOk : Bool) (trail : List String) :
    List String × Except String Unit :=
  (writeAudit diskOk trail "blocked:shell",
    Except.error ("ClawShield blocked shell execution: " ++ fn))

/-- `handleNetwork` of `node-guard.ts`: on a denied host it logs a
blocked entry and throws; on an allowed host it logs a success entry
only under audit level `all` and lets the call proceed. -/
def handleNetwork (cfg : GuardNetConfig) (auditLevelAll diskOk : Bool)
    (trail : List String) (host : Option String) :
    List String × Except String Unit :=
  if nodeNetworkAllowed cfg host then
    ((if auditLevelAll then writeAudit diskOk trail "success:network" else trail),
      Except.ok ())
  else
    (writeAudit diskOk trail "blocked:network",
      Except.error ("ClawShield blocked network access: " ++ host.getD "unknown"))

/-- One parsed audit-trail line as `scanBehavior` sees it after
`JSON.parse`: the fields it reads, with absent fields as `none`.
`details` is modelled as a string-valued association list (the values
`scanBehavior` uses are stringified anyway). -/
structure AuditLineEntry where
  action : Option String
  result : Option String
  skillId : Option String
  details : List (String × String)
deriving DecidableEq

/-- One raw line of the audit trail: whitespace-only, unparseable JSON,
or a parsed entry. -/
inductive RawLine
  | blank
  | malformed
  | entry (e : AuditLineEntry)
deriving DecidableEq

/-- Whether a raw line survives the `line.trim().length > 0` filter. -/
def nonBlank : RawLine → Bool
  | RawLine.blank => false
  | _ => true

/-- The parsed entry of a line, if any. -/
def entryOf : RawLine → Option AuditLineEntry
  | RawLine.entry e => some e
  | _ => none

/-- Model of `slice(-n)`: the last `n` elements. -/
def lastN (n : Nat) (l : List RawLine) : List RawLine :=
  l.drop (l.length - n)

/-- The `kind` read from an entry: `details.kind` when it is a string,
otherwise the default `"runtime"`. -/
def entryKind (e : AuditLineEntry) : String :=
  match e.details.lookup "kind" with
  | some v => v
  | none => "runtime"

/-- The `result` read from an entry: `entry.result || 'blocked'`, i.e.
a missing or empty (falsy) result defaults to `"blocked"`. -/
def entryResult (e : AuditLineEntry) : String :=
  match e.result with
  | none => "blocked"
  | some s => if s = "" then "blocked" else s

/-- Severity assigned to a blocked runtime action in `scanBehavior`:
`shell` and `network` are high, everything else medium. -/
def blockedSeverity (kind : String) : Severity :=
  if kind = "shell" then Severity.high
  else if kind = "network" then Severity.high
  else Severity.medium

/-- The `k=v ...` evidence string built from the entry details,
truncated to 180 characters. -/
def detailsEvidence (details : List (String × String)) : String :=
  takeStr 180 (String.intercalate " " (details.map (fun kv => kv.1 ++ "=" ++ kv.2)))

/-- The flag `scanBehavior` pushes for one qualifying audit entry. -/
def runtimeBlockedFlag (auditPath : String) (e : AuditLineEntry) : RiskFlag :=
  { type := "runtime_blocked"
    severity := blockedSeverity (entryKind e)
    description := "Runtime guard blocked " ++ entryKind e ++ " action"
    location := some auditPath
    line := none
    source := some FlagSource.behavior
    evidence := some (detailsEvidence e.details) }

/-- The body of the `scanBehavior` loop for one line: skip malformed
lines, entries whose action is not `runtime`, entries whose `skillId` is
missing, empty or different from the scanned skill's id, and entries
whose (defaulted) result is not `blocked`; otherwise produce one flag. -/
def behaviorLineFlag (auditPath : String) (sid : String) : RawLine → Option RiskFlag
  | RawLine.blank => none
  | RawLine.malformed => none
  | RawLine.entry e =>
    if e.action != some "runtime" then none
    else
      match e.skillId with
      | none => none
      | some s =>
        if s = "" then none
        else if s != sid then none
        else if entryResult e != "blocked" then none
        else some (runtimeBlockedFlag auditPath e)

/-- `RiskScannerService.scanBehavior`: drop whitespace-only lines, keep
the last 2000, and map each qualifying entry to one flag. -/
def scanBehavior (auditPath : String) (lines : List RawLine) (sid : String) :
    List RiskFlag :=
  (lastN 2000 (lines.filter nonBlank)).filterMap (behaviorLineFlag auditPath sid)

/-- Claim C8's qualification predicate as literally stated: action
`runtime`, skillId equal to the scanned id, and `result` equal to
`blocked`. -/
def specBehaviorQualifies (sid : String) (e : AuditLineEntry) : Bool :=
  e.action == some "runtime" && e.skillId == some sid && e.result == some "blocked"

/-- The amended qualification predicate: as C8, except that a missing or
empty `result` field defaults to `blocked` (the source's
`entry.result || 'blocked'`). -/
def amendedBehaviorQualifies (sid : String) (e : AuditLineEntry) : Bool :=
  e.action == some "runtime" && e.skillId == some sid && entryResult e == "blocked"

/-- Inputs of one `scanSkill` invocation.  The per-file pattern/AST
flags and the dependency flags are produced by detectors whose inputs
(file contents, manifests) are abstracted here as the detector outputs
themselves; the audit trail is given line by line.  A skill whose path
does not exist yields empty `fileFlags` and `dependencyFlags` (the
`glob`/`existsSync` calls all come back empty). -/
structure ScanEnv where
  fileFlags : List RiskFlag
  dependencyFlags : List RiskFlag
  auditPath : String
  auditLines : List RawLine

/-- The findings list assembled by `scanSkill`: file flags (pattern,
long-line and AST detectors, including `SKILL.md`), then dependency
flags, then behavior flags. -/
def scanFlags (env : ScanEnv) (sid : String) : List RiskFlag :=
  env.fileFlags ++ env.dependencyFlags ++ scanBehavior env.auditPath env.auditLines sid

/-- The scan result (`RiskScanResult` in `types.ts`); the free-text
`explanation` and wall-clock `scannedAt` fields are omitted from the
model. -/
structure RiskScanResult where
  score : ℤ
  flags : List RiskFlag
  recommendation : RiskRecommendation
  dependencyCount : Nat
  astCount : Nat
  behaviorCount : Nat

/-- `RiskScannerService.scanSkill`: the recommendation is computed from
the unclamped total, the returned score is `Math.min(100, totalScore)`. -/
def scanSkill (env : ScanEnv) (sid : String) : RiskScanResult :=
  let flags := scanFlags env sid
  let totalScore := calculateScore flags
  { score := min 100 totalScore
    flags := flags
    recommendation := getRecommendation totalScore
    dependencyCount := (flags.filter (fun f => f.source == some FlagSource.dependency)).length
    astCount := (flags.filter (fun f => f.source == some FlagSource.ast)).length
    behaviorCount := (flags.filter (fun f => f.source == some FlagSource.behavior)).length }

/-- The pattern lists consulted by `checkPatterns`: the lists registered
for the file's language category, followed by the `all` lists when
present.  A `RegExp` is modelled by its `test` function `String → Bool`. -/
def patternsFor (patterns : List (String × List (String → Bool))) (langCategory : String) :
    List (String → Bool) :=
  (match patterns.lookup langCategory with
   | some ps => ps
   | none => []) ++
  (match patterns.lookup "all" with
   | some ps => ps
   | none => [])

/-- The line loop of `RiskScannerService.checkPatterns`: for each line,
the first matching pattern produces one flag (the inner loop breaks on
the first match), unless a flag with the same type, line and location
already exists in the accumulator. -/
def checkPatternsGo (ps : List (String → Bool)) (filePath flagType description : String)
    (severity : Severity) (source : Option FlagSource) :
    Nat → List String → List RiskFlag → List RiskFlag
  | _, [], flags => flags
  | i, line :: rest, flags =>
    let flags1 :=
      if ps.any (fun p => p line) then
        if flags.any (fun f =>
            f.type == flagType && f.line == some (i + 1) && f.location == some filePath) then
          flags
        else
          flags ++ [{ type := flagType, severity := severity, description := description,
                      location := some filePath, line := some (i + 1), source := source,
                      evidence := none }]
      else flags
    checkPatternsGo ps filePath flagType description severity source (i + 1) rest flags1

/-- `RiskScannerService.checkPatterns`. -/
def checkPatterns (lines : List String) (filePath : String) (langCategory : String)
    (patterns : List (String × List (String → Bool))) (flagType : String)
    (description : String) (severity : Severity) (source : Option FlagSource) :
    List RiskFlag :=
  checkPatternsGo (patternsFor patterns langCategory) filePath flagType description severity
    source 0 lines []

/-- The `seen`-set deduplication shared by the `addFlag` helpers of
`scanAst` and `scanDependencies`: a candidate flag is dropped when its
key string was already seen, otherwise emitted and its key recorded. -/
def dedupBySeen (key : RiskFlag → String) : List RiskFlag → List String → List RiskFlag
  | [], _ => []
  | f :: rest, seen =>
    if seen.contains (key f) then dedupBySeen key rest seen
    else f :: dedupBySeen key rest (key f :: seen)

/-- The seen-set key of `scanAst`'s `addFlag`:
`type:filePath:(line ?? 0):(evidence ?? '')`. -/
def astSeenKey (f : RiskFlag) : String :=
  f.type ++ ":" ++ f.location.getD "" ++ ":" ++ toString (f.line.getD 0) ++ ":"
    ++ f.evidence.getD ""

/-- The seen-set key of `scanDependencies`' `addFlag`:
`type:(location ?? ''):(evidence ?? '')`. -/
def depSeenKey (f : RiskFlag) : String :=
  f.type ++ ":" ++ f.location.getD "" ++ ":" ++ f.evidence.getD ""

/-- The flag list emitted by `scanAst` for the candidate flags requested
by the syntax-tree traversal (the Babel walk itself is abstracted as the
request list; the deduplication mechanism is modelled exactly). -/
def scanAstDedup (requested : List RiskFlag) : List RiskFlag :=
  dedupBySeen astSeenKey requested []

/-- The flag list emitted by `scanDependencies` for the candidate flags
requested by the manifest/lockfile/binary checks (the file inspection is
abstracted as the request list; the deduplication mechanism is modelled
exactly). -/
def scanDependenciesDedup (requested : List RiskFlag) : List RiskFlag :=
  dedupBySeen depSeenKey requested []

/-- An audit entry whose `result` field is absent: `scanBehavior` treats
it as blocked via `entry.result || 'blocked'`. -/
def resultlessEntry : AuditLineEntry :=
  { action := some "runtime", result := none, skillId := some "s",
    details := [("kind", "shell")] }

/-- A well-formed blocked runtime entry for skill `"s"`. -/
def dupBlockedEntry : AuditLineEntry :=
  { action := some "runtime", result := some "blocked", skillId := some "s",
    details := [("kind", "shell")] }

/-- A scan environment whose audit trail repeats the same blocked entry
twice (the skill has no files and no dependency findings). -/
def dupEnv : ScanEnv :=
  { fileFlags := [], dependencyFlags := [], auditPath := "/a",
    auditLines := [RawLine.entry dupBlockedEntry, RawLine.entry dupBlockedEntry] }

/-- A small audit trail exercising every branch of `scanBehavior`: a
blank line, a malformed line, a qualifying blocked entry and a
non-blocked entry. -/
def sampleLines : List RawLine :=
  [RawLine.blank, RawLine.malformed,
   RawLine.entry { action := some "runtime", result := some "blocked", skillId := some "s",
                   details := [("kind", "network")] },
   RawLine.entry { action := some "runtime", result := some "success", skillId := some "s",
                   details := [] }]

/-! ### Helper lemmas about the string model -/

theorem toNat_ofNat_valid {n : Nat} (h : n.isValidChar) : (Char.ofNat n).toNat = n := by
  rw [Char.ofNat, dif_pos h]
  rfl

theorem toLower_eq_colon_iff (c : Char) : Char.toLower c = ':' ↔ c = ':' := by
  constructor
  · intro h
    unfold Char.toLower at h
    simp only at h
    by_cases hc : c.toNat ≥ 65 ∧ c.toNat ≤ 90
    · rw [if_pos hc] at h
      exfalso
      have hv : (Char.toNat c + 32).isValidChar := Or.inl (by omega)
      have h2 := congrArg Char.toNat h
      rw [toNat_ofNat_valid hv] at h2
      have h3 : Char.toNat ':' = 58 := by decide
      omega
    · rw [if_neg hc] at h
      exact h
  · intro h
    subst h
    decide

theorem toLower_bne_colon (c : Char) : (Char.toLower c != ':') = (c != ':') := by
  by_cases hc : c = ':'
  · subst hc
    decide
  · have h1 : Char.toLower c ≠ ':' := fun h => hc ((toLower_eq_colon_iff c).mp h)
    simp [bne, beq_eq_false_iff_ne, h1, hc]

theorem takeWhile_map_toLower (l : List Char) :
    (l.map Char.toLower).takeWhile (fun c => c != ':')
      = (l.takeWhile (fun c => c != ':')).map Char.toLower := by
  induction l with
  | nil => rfl
  | cons a l ih =>
    simp only [List.map_cons, List.takeWhile_cons, toLower_bne_colon]
    by_cases ha : (a != ':') = true
    · rw [if_pos ha, if_pos ha, List.map_cons, ih]
    · rw [if_neg ha, if_neg ha]
      rfl

theorem beforeColon_lowerStr (s : String) :
    beforeColon (lowerStr s) = lowerStr (beforeColon s) :=
  congrArg String.mk (takeWhile_map_toLower s.data)

theorem isDomainAllowed_eq_py (domains : List String) (host : Option String) :
    isDomainAllowed domains host = pyIsDomainAllowed domains host := by
  cases host with
  | none => rfl
  | some h =>
    simp only [isDomainAllowed, pyIsDomainAllowed]
    rw [beforeColon_lowerStr]

theorem pyIsDomainAllowed_nil (host : Option String) : pyIsDomainAllowed [] host = false := by
  cases host <;> rfl

/-! ### Claims C3 and C4: allow-list matching in the runtime guard -/

/-- C3 counterexample: with an empty allow-list, the guard still allows
its own audit file path, although the claimed characterisation (equal to
an allow-listed directory or a separator-bounded extension of one) holds
for no path. -/
theorem pathAllowed_counterexample :
    isPathAllowed "/home/u/.clawshield/audit.jsonl" []
        (some "/home/u/.clawshield/audit.jsonl") = true
  ∧ specPathAllowed [] "/home/u/.clawshield/audit.jsonl" = false :=
  ⟨by decide, by decide⟩

/-- C3 amended: the guard's path check allows a canonical target path
exactly when it equals the canonical audit file path, or equals an
allow-listed directory, or extends one followed by the path separator;
in particular `/ws/skills/foo/data.txt` is allowed under allow-listed
`/ws/skills/foo` while the sibling `/ws/skills/foobar/x` is not. -/
theorem pathAllowed_amended :
    (∀ (auditResolved : String) (allowedDirs : List String) (target : String),
        isPathAllowed auditResolved allowedDirs (some target)
          = ((target == auditResolved) || specPathAllowed allowedDirs target))
  ∧ isPathAllowed "/home/u/.clawshield/audit.jsonl" ["/ws/skills/foo"]
      (some "/ws/skills/foo/data.txt") = true
  ∧ isPathAllowed "/home/u/.clawshield/audit.jsonl" ["/ws/skills/foo"]
      (some "/ws/skills/foobar/x") = false := by
  refine ⟨?_, by decide, by decide⟩
  intro a dirs t
  unfold isPathAllowed specPathAllowed
  cases h : (t == a) with
  | true => simp [h]
  | false =>
    cases dirs with
    | nil => simp [h]
    | cons d ds => simp [h]

/-- C4: the guard's domain check allows a hostname exactly when it
equals an allow-listed domain or ends with `"."` followed by one,
case-insensitively and ignoring a `:port` suffix; in particular
`api.example.com` is allowed under `example.com` while
`evilexample.com` is not. -/
theorem domainAllowed_matches_spec :
    (∀ (domains : List String) (host : String),
        isDomainAllowed domains (some host) = specDomainAllowed domains host)
  ∧ isDomainAllowed ["example.com"] (some "api.example.com") = true
  ∧ isDomainAllowed ["example.com"] (some "evilexample.com") = false := by
  refine ⟨?_, by decide, by decide⟩
  intro domains host
  simp only [isDomainAllowed, specDomainAllowed]
  rw [beforeColon_lowerStr]
  cases domains with
  | nil => simp
  | cons d ds => simp

/-! ### Claim C5: Node vs Python network decision -/

/-- C5 counterexample: with `blockNetwork = false` and allow-listed
domain `example.com`, the Node guard denies host `evil.com` (a non-empty
allow-list overrides the flag) while the Python guard allows it (the
flag overrides the allow-list). -/
theorem networkDecision_counterexample :
    nodeNetworkAllowed { blockNetwork := false, allowedDomains := ["example.com"] }
        (some "evil.com") = false
  ∧ pyNetworkAllowed { blockNetwork := false, allowedDomains := ["example.com"] }
        (some "evil.com") = true :=
  ⟨by decide, by decide⟩

/-- C5 amended: the Node and Python network adapters reach the same
allow/deny decision whenever `blockNetwork` is set or the domain
allow-list is empty; with `blockNetwork = false` and a non-empty
allow-list they can disagree (see the counterexample). -/
theorem networkDecision_amended (cfg : GuardNetConfig) (host : Option String)
    (h : cfg.blockNetwork = true ∨ cfg.allowedDomains = []) :
    nodeNetworkAllowed cfg host = pyNetworkAllowed cfg host := by
  unfold nodeNetworkAllowed pyNetworkAllowed
  rcases h with h | h
  · rw [h]
    simp only [Bool.not_true, Bool.false_or]
    cases hd : cfg.allowedDomains with
    | nil =>
      simp [pyIsDomainAllowed_nil]
    | cons d ds =>
      rw [← hd]
      rw [hd]
      simp only [List.length_cons, Nat.succ_sub_one, if_pos (Nat.succ_pos ds.length)]
      rw [← hd, isDomainAllowed_eq_py]
  · rw [h]
    simp [pyIsDomainAllowed_nil]

/-- Witness for the amended C5 theorem at a concrete configuration. -/
theorem networkDecision_amended_witness :
    ((GuardNetConfig.mk true ["example.com"]).blockNetwork = true
      ∨ (GuardNetConfig.mk true ["example.com"]).allowedDomains = [])
  ∧ nodeNetworkAllowed { blockNetwork := true, allowedDomains := ["example.com"] }
        (some "api.example.com")
      = pyNetworkAllowed { blockNetwork := true, allowedDomains := ["example.com"] }
        (some "api.example.com") :=
  ⟨Or.inl rfl,
   networkDecision_amended { blockNetwork := true, allowedDomains := ["example.com"] }
     (some "api.example.com") (Or.inl rfl)⟩

/-! ### Claim C2: recommendation thresholds -/

/-- C2: on scores in `[0, 100]` the recommendation tiers form the
partition `allow ↔ score ≤ 30`, `sandbox ↔ 31 ≤ score ≤ 60`,
`block ↔ 61 ≤ score`, and every score lands in exactly one tier. -/
theorem recommendation_partition (s : ℤ) (h0 : 0 ≤ s) (h100 : s ≤ 100) :
    (getRecommendation s = RiskRecommendation.allow ↔ s ≤ 30)
  ∧ (getRecommendation s = RiskRecommendation.sandbox ↔ 31 ≤ s ∧ s ≤ 60)
  ∧ (getRecommendation s = RiskRecommendation.block ↔ 61 ≤ s) := by
  unfold getRecommendation SAFE_MAX WARNING_MAX
  refine ⟨?_, ?_, ?_⟩ <;> split_ifs with h1 h2 <;> simp_all <;> omega

/-- Witness for the recommendation partition at score 45. -/
theorem recommendation_partition_witness :
    (0 ≤ (45 : ℤ)) ∧ ((45 : ℤ) ≤ 100)
  ∧ ((getRecommendation 45 = RiskRecommendation.allow ↔ (45 : ℤ) ≤ 30)
    ∧ (getRecommendation 45 = RiskRecommendation.sandbox ↔ 31 ≤ (45 : ℤ) ∧ (45 : ℤ) ≤ 60)
    ∧ (getRecommendation 45 = RiskRecommendation.block ↔ 61 ≤ (45 : ℤ))) :=
  ⟨by decide, by decide, recommendation_partition 45 (by decide) (by decide)⟩

/-! ### Claim C6: what a denial of each guarded operation does -/

/-- Helper for the filesystem-write gate: when it denies a target, the
wrapper raises the blocked error to the caller for every audit-disk
outcome (`diskOk` true or false) and never returns success; the
audit-write failure itself is swallowed inside `writeAudit` and cannot
turn the denial into an allow. -/
theorem deniedWrite_raises_error (cfg : GuardFsConfig) (auditLevelAll diskOk : Bool)
    (trail : List String) (target : Option String)
    (hBlock : cfg.blockFsWrite = true)
    (hDeny : isPathAllowed cfg.auditResolved cfg.allowedDirs target = false) :
    (wrapWrite cfg auditLevelAll diskOk trail target).2
        = Except.error "ClawShield blocked filesystem write"
  ∧ (wrapWrite cfg auditLevelAll diskOk trail target).2 ≠ Except.ok () := by
  unfold wrapWrite
  rw [hBlock, hDeny]
  simp

/-- Concrete instantiation of `deniedWrite_raises_error`: a guard with
`blockFsWrite` and an empty allow-list denies a write to `/etc/passwd`
even when the audit disk write fails. -/
theorem deniedWrite_raises_error_witness :
    ((GuardFsConfig.mk true [] "/home/u/.clawshield/audit.jsonl").blockFsWrite = true)
  ∧ (isPathAllowed "/home/u/.clawshield/audit.jsonl" [] (some "/etc/passwd") = false)
  ∧ ((wrapWrite (GuardFsConfig.mk true [] "/home/u/.clawshield/audit.jsonl") false false []
        (some "/etc/passwd")).2
      = Except.error "ClawShield blocked filesystem write"
    ∧ (wrapWrite (GuardFsConfig.mk true [] "/home/u/.clawshield/audit.jsonl") false false []
        (some "/etc/passwd")).2 ≠ Except.ok ()) :=
  ⟨rfl, by decide,
   deniedWrite_raises_error (GuardFsConfig.mk true [] "/home/u/.clawshield/audit.jsonl")
     false false [] (some "/etc/passwd") rfl (by decide)⟩

/-- C6 counterexample: a read of the non-allow-listed environment key
`AWS_SECRET` with secret-blocking enabled is denied — a `blocked`
AuditEntry is written — yet no error is raised to the caller: the read
evaluates to `undefined` and the guarded code proceeds. -/
theorem envDenial_counterexample :
    (envGetGuard [] true [] [("AWS_SECRET", "x")] "AWS_SECRET").1 = ["blocked:env"]
  ∧ (envGetGuard [] true [] [("AWS_SECRET", "x")] "AWS_SECRET").2
      = Except.ok (none : Option String) :=
  ⟨by decide, rfl⟩

/-- C6 amended: every denied shell, filesystem-write or network
operation raises an error to the caller, for every audit-disk outcome
(`diskOk` true or false) — the audit-write failure is swallowed inside
`writeAudit` and never converts the denial into a success — while a
denied environment read is enforced by returning `undefined` rather
than raising. -/
theorem deniedOperation_raises_amended :
    (∀ (cfg : GuardFsConfig) (auditLevelAll diskOk : Bool) (trail : List String)
        (target : Option String),
        cfg.blockFsWrite = true →
        isPathAllowed cfg.auditResolved cfg.allowedDirs target = false →
        (wrapWrite cfg auditLevelAll diskOk trail target).2
            = Except.error "ClawShield blocked filesystem write"
        ∧ (wrapWrite cfg auditLevelAll diskOk trail target).2 ≠ Except.ok ())
  ∧ (∀ (fn : String) (diskOk : Bool) (trail : List String),
        (blockedShellCall fn diskOk trail).2
          = Except.error ("ClawShield blocked shell execution: " ++ fn))
  ∧ (∀ (cfg : GuardNetConfig) (auditLevelAll diskOk : Bool) (trail : List String)
        (host : Option String),
        nodeNetworkAllowed cfg host = false →
        (handleNetwork cfg auditLevelAll diskOk trail host).2
          = Except.error ("ClawShield blocked network access: " ++ host.getD "unknown"))
  ∧ (∀ (allowedEnv : List String) (diskOk : Bool) (trail : List String)
        (env : List (String × String)) (key : String),
        (defaultEnvAllowed allowedEnv).contains key = false →
        (envGetGuard allowedEnv diskOk trail env key).2 = Except.ok none) := by
  refine ⟨?_, ?_, ?_, ?_⟩
  · intro cfg auditLevelAll diskOk trail target h1 h2
    exact deniedWrite_raises_error cfg auditLevelAll diskOk trail target h1 h2
  · intro fn diskOk trail
    rfl
  · intro cfg auditLevelAll diskOk trail host h
    unfold handleNetwork
    rw [h]
    simp
  · intro allowedEnv diskOk trail env key h
    unfold envGetGuard
    rw [h]
    simp

/-- Witness for the amended C6 theorem: concrete denials of a
filesystem write, a network connection and an environment read. -/
theorem deniedOperation_raises_amended_witness :
    ((GuardFsConfig.mk true [] "/a").blockFsWrite = true
      ∧ isPathAllowed "/a" [] (some "/etc/passwd") = false
      ∧ (wrapWrite (GuardFsConfig.mk true [] "/a") false false [] (some "/etc/passwd")).2
          = Except.error "ClawShield blocked filesystem write"
      ∧ (wrapWrite (GuardFsConfig.mk true [] "/a") false false [] (some "/etc/passwd")).2
          ≠ Except.ok ())
  ∧ (nodeNetworkAllowed (GuardNetConfig.mk true []) (some "evil.com") = false
      ∧ (handleNetwork (GuardNetConfig.mk true []) false false [] (some "evil.com")).2
          = Except.error
              ("ClawShield blocked network access: " ++ (some "evil.com").getD "unknown"))
  ∧ ((defaultEnvAllowed []).contains "AWS_SECRET" = false
      ∧ (envGetGuard [] false [] [] "AWS_SECRET").2 = Except.ok (none : Option String)) :=
  ⟨⟨rfl, by decide,
    (deniedOperation_raises_amended.1 (GuardFsConfig.mk true [] "/a") false false []
      (some "/etc/passwd") rfl (by decide)).1,
    (deniedOperation_raises_amended.1 (GuardFsConfig.mk true [] "/a") false false []
      (some "/etc/passwd") rfl (by decide)).2⟩,
   ⟨by decide,
    deniedOperation_raises_amended.2.2.1 (GuardNetConfig.mk true []) false false []
      (some "evil.com") (by decide)⟩,
   ⟨by decide,
    deniedOperation_raises_amended.2.2.2 [] false [] [] "AWS_SECRET" (by decide)⟩⟩

/-! ### Scoring lemmas and claims C1, C7, C10 -/

theorem scanSkill_score (env : ScanEnv) (sid : String) :
    (scanSkill env sid).score = min 100 (calculateScore (scanFlags env sid)) := rfl

theorem scanSkill_recommendation (env : ScanEnv) (sid : String) :
    (scanSkill env sid).recommendation = getRecommendation (calculateScore (scanFlags env sid)) :=
  rfl

theorem scanSkill_flags (env : ScanEnv) (sid : String) :
    (scanSkill env sid).flags = scanFlags env sid := rfl

theorem foldl_add_eq_sum (g : String → ℚ) (l : List String) (a : ℚ) :
    l.foldl (fun acc t => acc + g t) a = a + (l.map g).sum := by
  induction l generalizing a with
  | nil => simp
  | cons x xs ih => simp [ih, add_assoc]

theorem calculateScore_eq_round_sum (flags : List RiskFlag) :
    calculateScore flags = round (specScoreSum flags) := by
  unfold calculateScore specScoreSum
  rw [foldl_add_eq_sum, zero_add]

theorem typeWeight_nonneg (t : String) : 0 ≤ typeWeight t := by
  unfold typeWeight
  exact Nat.cast_nonneg _

theorem categoryContribution_nonneg (flags : List RiskFlag) (t : String) :
    0 ≤ categoryContribution flags t := by
  unfold categoryContribution
  have h1 := typeWeight_nonneg t
  have h2 : (0 : ℚ) ≤ ((min ((flags.map RiskFlag.type).count t - 1) 3 : ℕ) : ℚ) :=
    Nat.cast_nonneg _
  have h3 : (0 : ℚ) ≤ typeWeight t / 4 := by positivity
  have h4 := mul_nonneg h2 h3
  linarith

theorem specScoreSum_nonneg (flags : List RiskFlag) : 0 ≤ specScoreSum flags := by
  unfold specScoreSum
  apply List.sum_nonneg
  intro x hx
  simp only [List.mem_map] at hx
  obtain ⟨t, _, rfl⟩ := hx
  exact categoryContribution_nonneg flags t

theorem calculateScore_nonneg (flags : List RiskFlag) : 0 ≤ calculateScore flags := by
  rw [calculateScore_eq_round_sum, round_eq]
  apply Int.floor_nonneg.mpr
  have := specScoreSum_nonneg flags
  linarith

/-- C1: the score returned by a scan is the rounded sum, over each
distinct category present, of `weight[c] + min(count[c]-1, 3) *
weight[c]/4` (unknown categories weighing 5, built into `typeWeight`),
clamped to at most 100 and never negative. -/
theorem scanScore_formula (env : ScanEnv) (sid : String) :
    (scanSkill env sid).score = min 100 (round (specScoreSum (scanFlags env sid)))
  ∧ 0 ≤ (scanSkill env sid).score := by
  constructor
  · rw [scanSkill_score, calculateScore_eq_round_sum]
  · rw [scanSkill_score]
    exact le_min (by norm_num) (calculateScore_nonneg _)

/-- C7: a scan of a skill whose path does not exist (so that every file,
manifest and glob lookup comes back empty, and with no audit history for
it) is reported as a successful result with score 0, empty findings and
recommendation `allow` — not as an error.  The spec requires an explicit
error result for this scanner-level total failure, so this evaluation
exhibits the divergence of the code from the claim. -/
theorem missingPath_scan_returns_safe_result :
    (scanSkill (ScanEnv.mk [] [] "/home/u/.clawshield/audit.jsonl" []) "temp").score = 0
  ∧ (scanSkill (ScanEnv.mk [] [] "/home/u/.clawshield/audit.jsonl" []) "temp").recommendation
      = RiskRecommendation.allow
  ∧ (scanSkill (ScanEnv.mk [] [] "/home/u/.clawshield/audit.jsonl" []) "temp").flags = [] := by
  have hf : scanFlags (ScanEnv.mk [] [] "/home/u/.clawshield/audit.jsonl" []) "temp" = [] := rfl
  have hc : calculateScore [] = 0 := by
    unfold calculateScore
    simp
  refine ⟨?_, ?_, ?_⟩
  · rw [scanSkill_score, hf, hc]
    exact min_eq_right (by norm_num)
  · rw [scanSkill_recommendation, hf, hc]
    decide
  · rw [scanSkill_flags, hf]

/-- C10: the recommendation field of every scan result agrees with the
threshold tier of its (clamped) score field: totals above 100 and the
clamped value 100 both map to `block`, totals at most 100 are unchanged
by the clamp. -/
theorem recommendation_agrees_with_score (env : ScanEnv) (sid : String) :
    (scanSkill env sid).recommendation = getRecommendation ((scanSkill env sid).score) := by
  rw [scanSkill_recommendation, scanSkill_score]
  generalize calculateScore (scanFlags env sid) = t
  rcases le_or_lt t 100 with h | h
  · rw [min_eq_right h]
  · rw [min_eq_left h.le]
    unfold getRecommendation SAFE_MAX WARNING_MAX
    have h1 : ¬ (t ≤ (30 : ℤ)) := by omega
    have h2 : ¬ (t ≤ (60 : ℤ)) := by omega
    rw [if_neg h1, if_neg h2]
    norm_num

/-! ### Claim C8: the behavior scan -/

theorem behaviorLineFlag_entry (ap sid : String) (hsid : sid ≠ "") (e : AuditLineEntry) :
    behaviorLineFlag ap sid (RawLine.entry e)
      = if amendedBehaviorQualifies sid e then some (runtimeBlockedFlag ap e) else none := by
  obtain ⟨act, res, skid, det⟩ := e
  simp only [behaviorLineFlag, amendedBehaviorQualifies]
  by_cases ha : act = some "runtime"
  · subst ha
    cases skid with
    | none => simp
    | some s =>
      by_cases hss : s = sid
      · subst hss
        by_cases hr : entryResult ⟨some "runtime", res, some s, det⟩ = "blocked"
        · simp [hr, hsid]
        · simp [hr, hsid]
      · simp [hss]
  · simp [ha]

theorem filterMap_behavior_eq (ap sid : String) (hsid : sid ≠ "") (l : List RawLine) :
    l.filterMap (behaviorLineFlag ap sid)
      = ((l.filterMap entryOf).filter (amendedBehaviorQualifies sid)).map
          (runtimeBlockedFlag ap) := by
  induction l with
  | nil => rfl
  | cons x xs ih =>
    cases x with
    | blank =>
      simp only [List.filterMap_cons, behaviorLineFlag, entryOf]
      exact ih
    | malformed =>
      simp only [List.filterMap_cons, behaviorLineFlag, entryOf]
      exact ih
    | entry e =>
      rw [List.filterMap_cons, List.filterMap_cons]
      simp only [entryOf]
      rw [behaviorLineFlag_entry ap sid hsid e]
      cases hq : amendedBehaviorQualifies sid e with
      | true => simp [hq, List.filter_cons, ih]
      | false => simp [hq, List.filter_cons, ih]

/-- C8 counterexample: an audit entry with action `runtime`, matching
skillId and *no* `result` field produces a `runtime_blocked` finding,
although the claim's qualification (`result` equal to `blocked`) does
not hold for it — the code defaults a missing result to blocked. -/
theorem behaviorScan_counterexample :
    (scanBehavior "/a" [RawLine.entry resultlessEntry] "s").length = 1
  ∧ specBehaviorQualifies "s" resultlessEntry = false :=
  ⟨by decide, by decide⟩

/-- C8 amended: the behavior scan produces one `runtime_blocked`
finding (source `behavior`) for exactly those entries among the last
2000 non-blank audit lines that parse and have action `runtime`,
skillId equal to the scanned skill's (non-empty) id, and a result that
is `blocked` or missing/empty (a falsy result defaults to `blocked`);
severity is high exactly for the kinds `shell` and `network` and medium
otherwise; malformed lines are skipped without aborting the scan. -/
theorem behaviorScan_amended :
    (∀ (ap : String) (lines : List RawLine) (sid : String), sid ≠ "" →
        scanBehavior ap lines sid
          = (((lastN 2000 (lines.filter nonBlank)).filterMap entryOf).filter
              (amendedBehaviorQualifies sid)).map (runtimeBlockedFlag ap))
  ∧ (∀ (ap : String) (e : AuditLineEntry),
        (runtimeBlockedFlag ap e).type = "runtime_blocked"
      ∧ (runtimeBlockedFlag ap e).source = some FlagSource.behavior
      ∧ (runtimeBlockedFlag ap e).severity
          = (if entryKind e = "shell" ∨ entryKind e = "network" then Severity.high
             else Severity.medium)) := by
  constructor
  · intro ap lines sid hsid
    exact filterMap_behavior_eq ap sid hsid _
  · intro ap e
    refine ⟨rfl, rfl, ?_⟩
    show blockedSeverity (entryKind e) = _
    unfold blockedSeverity
    by_cases h1 : entryKind e = "shell"
    · simp [h1]
    · by_cases h2 : entryKind e = "network"
      · simp [h1, h2]
      · simp [h1, h2]

/-- Witness for the amended C8 theorem on a small concrete audit trail
containing a blank line, a malformed line, a qualifying entry and a
non-blocked entry. -/
theorem behaviorScan_amended_witness :
    (("s" : String) ≠ "")
  ∧ scanBehavior "/a" sampleLines "s"
      = (((lastN 2000 (sampleLines.filter nonBlank)).filterMap entryOf).filter
          (amendedBehaviorQualifies "s")).map (runtimeBlockedFlag "/a") :=
  ⟨by decide, behaviorScan_amended.1 "/a" sampleLines "s" (by decide)⟩

/-! ### Claim C9: finding uniqueness per (category, file, line, evidence) -/

theorem dedupBySeen_strKey_nodup (key : RiskFlag → String) (l : List RiskFlag) :
    ∀ seen : List String,
      ((dedupBySeen key l seen).map key).Nodup
    ∧ ∀ k ∈ (dedupBySeen key l seen).map key, k ∉ seen := by
  induction l with
  | nil =>
    intro seen
    simp [dedupBySeen]
  | cons f rest ih =>
    intro seen
    simp only [dedupBySeen]
    cases hc : seen.contains (key f) with
    | true =>
      simp only [hc, if_true]
      exact ih seen
    | false =>
      obtain ⟨ih1, ih2⟩ := ih (key f :: seen)
      simp only [hc, Bool.false_eq_true, if_false, List.map_cons, List.nodup_cons]
      refine ⟨⟨?_, ih1⟩, ?_⟩
      · intro hmem
        have h := ih2 _ hmem
        exact h (List.mem_cons_self _ _)
      · intro k hk
        rcases List.mem_cons.mp hk with rfl | hk2
        · intro hs
          have hcm : seen.contains (key f) = true := List.elem_iff.mpr hs
          rw [hc] at hcm
          exact Bool.false_ne_true hcm
        · have h := ih2 k hk2
          intro hs
          exact h (List.mem_cons_of_mem _ hs)

theorem nodup_flagKey_of_nodup_strKey (kf : RiskFlag → String) (l : List RiskFlag)
    (hcong : ∀ f g : RiskFlag, flagKey f = flagKey g → kf f = kf g)
    (h : (l.map kf).Nodup) : (l.map flagKey).Nodup := by
  have h2 : l.Pairwise (fun a b => kf a ≠ kf b) := List.pairwise_map.mp h
  have h3 : l.Pairwise (fun a b => flagKey a ≠ flagKey b) :=
    h2.imp (fun hab hk => hab (hcong _ _ hk))
  exact List.pairwise_map.mpr h3

theorem astSeenKey_congr (f g : RiskFlag) (h : flagKey f = flagKey g) :
    astSeenKey f = astSeenKey g := by
  simp only [flagKey, Prod.mk.injEq] at h
  obtain ⟨h1, h2, h3, h4⟩ := h
  unfold astSeenKey
  rw [h1, h2, h3, h4]

theorem depSeenKey_congr (f g : RiskFlag) (h : flagKey f = flagKey g) :
    depSeenKey f = depSeenKey g := by
  simp only [flagKey, Prod.mk.injEq] at h
  obtain ⟨h1, h2, h3, h4⟩ := h
  unfold depSeenKey
  rw [h1, h2, h4]

theorem checkPatternsGo_nodup (ps : List (String → Bool)) (fp ft d : String)
    (sv : Severity) (src : Option FlagSource) (rest : List String) :
    ∀ (i : Nat) (flags : List RiskFlag),
      (∀ f ∈ flags, ∀ n, f.line = some n → n ≤ i) →
      (flags.map flagKey).Nodup →
      ((checkPatternsGo ps fp ft d sv src i rest flags).map flagKey).Nodup := by
  induction rest with
  | nil =>
    intro i flags _ h2
    simpa [checkPatternsGo] using h2
  | cons line rest ih =>
    intro i flags h1 h2
    simp only [checkPatternsGo]
    by_cases hc1 : (ps.any fun p => p line) = true
    · by_cases hc2 : (flags.any fun f =>
          f.type == ft && f.line == some (i + 1) && f.location == some fp) = true
      · rw [if_pos hc1, if_pos hc2]
        exact ih (i + 1) flags
          (fun f hf n hn => Nat.le_trans (h1 f hf n hn) (Nat.le_succ i)) h2
      · rw [if_pos hc1, if_neg hc2]
        apply ih (i + 1)
        · intro f hf n hn
          rcases List.mem_append.mp hf with hf2 | hf2
          · exact Nat.le_trans (h1 f hf2 n hn) (Nat.le_succ i)
          · simp only [List.mem_singleton] at hf2
            subst hf2
            simp only [Option.some.injEq] at hn
            omega
        · rw [List.map_append, List.nodup_append]
          refine ⟨h2, by simp, ?_⟩
          intro k hk1 hk2
          simp only [List.map_cons, List.map_nil, List.mem_singleton] at hk2
          subst hk2
          simp only [List.mem_map] at hk1
          obtain ⟨f, hf, hfk⟩ := hk1
          have hline : f.line = some (i + 1) := by
            have h5 : flagKey f
                = flagKey { type := ft, severity := sv, description := d,
                            location := some fp, line := some (i + 1), source := src,
                            evidence := none } := hfk
            simp only [flagKey, Prod.mk.injEq] at h5
            exact h5.2.2.1
          have h6 := h1 f hf (i + 1) hline
          omega
    · rw [if_neg hc1]
      exact ih (i + 1) flags
        (fun f hf n hn => Nat.le_trans (h1 f hf n hn) (Nat.le_succ i)) h2

/-- C9 counterexample: a scan whose audit trail contains the same
blocked entry twice returns a findings list in which two findings share
the same `(category, file, line, evidence)` key — the behavior detector
performs no deduplication. -/
theorem findingUniqueness_counterexample :
    ¬ (((scanSkill dupEnv "s").flags.map flagKey).Nodup) := by
  decide

/-- C9 amended: per-`(category, file, line, evidence)` uniqueness holds
inside the pattern detector (each `checkPatterns` invocation) and inside
the seen-key deduplication shared by the syntax-tree and dependency
detectors, but behavior findings are emitted once per qualifying audit
entry without deduplication, so duplicate audit entries yield duplicate
findings in the scan result. -/
theorem findingUniqueness_amended :
    (∀ (lines : List String) (fp lang : String)
        (pats : List (String × List (String → Bool))) (ft d : String)
        (sv : Severity) (src : Option FlagSource),
        ((checkPatterns lines fp lang pats ft d sv src).map flagKey).Nodup)
  ∧ (∀ requested : List RiskFlag, ((scanAstDedup requested).map flagKey).Nodup)
  ∧ (∀ requested : List RiskFlag, ((scanDependenciesDedup requested).map flagKey).Nodup)
  ∧ scanBehavior "/a" [RawLine.entry dupBlockedEntry, RawLine.entry dupBlockedEntry] "s"
      = [runtimeBlockedFlag "/a" dupBlockedEntry, runtimeBlockedFlag "/a" dupBlockedEntry] := by
  refine ⟨?_, ?_, ?_, by decide⟩
  · intro lines fp lang pats ft d sv src
    exact checkPatternsGo_nodup (patternsFor pats lang) fp ft d sv src lines 0 []
      (by simp) (by simp)
  · intro requested
    exact nodup_flagKey_of_nodup_strKey astSeenKey _ astSeenKey_congr
      (dedupBySeen_strKey_nodup astSeenKey requested []).1
  · intro requested
    exact nodup_flagKey_of_nodup_strKey depSeenKey _ depSeenKey_congr
      (dedupBySeen_strKey_nodup depSeenKey requested []).1
